import Mathlib

/-!
Shallow embedding of the client-side components of the pcce-techyothon
frontend (ProjectSidebar, InviteNotifications, AddProjectModal,
ThinkBuddyAssistant), together with theorems checking the repository's
specification against this embedding.

Each React event handler is modelled as a pure function from its inputs
(component state, fetch outcomes, ambient collaborators) to its resulting
state together with an ordered trace of emitted effects.  JavaScript
truthiness on strings and optional values is modelled explicitly.
-/

namespace JsSem

/-- JavaScript truthiness for an optional string: `undefined`/`null` and
the empty string are falsy. -/
def strTruthy : Option String → Bool
  | none => false
  | some s => !(s = "")

/-- JavaScript `a || d` for an optional string `a` and default `d`: falls
through to the default exactly when `a` is `undefined`/`null` or empty. -/
def jsOrStr (a : Option String) (d : String) : String :=
  match a with
  | none => d
  | some s => if s = "" then d else s

/-- The characters JavaScript whitespace classes treat as whitespace
(restricted to the ASCII range used by this codebase). -/
def isJsWhitespace (c : Char) : Bool :=
  c = ' ' || c = '\t' || c = '\n' || c = '\r' || c = '\x0b' || c = '\x0c'

/-- Trimming on character lists: drop leading and trailing whitespace. -/
def trimList (l : List Char) : List Char :=
  ((l.dropWhile isJsWhitespace).reverse.dropWhile isJsWhitespace).reverse

/-- JavaScript string trim: drop leading and trailing whitespace. -/
def jsTrim (s : String) : String :=
  String.mk (trimList s.toList)

/-- Whether `pat` is a prefix of `l` (character lists). -/
def startsWithList : List Char → List Char → Bool
  | [], _ => true
  | _ :: _, [] => false
  | a :: as, b :: bs => a = b && startsWithList as bs

/-- Whether `pat` occurs contiguously inside `l`. -/
def containsSub (pat : List Char) : List Char → Bool
  | [] => startsWithList pat []
  | c :: rest => startsWithList pat (c :: rest) || containsSub pat rest

/-- JavaScript substring containment test. -/
def strIncludes (s pat : String) : Bool :=
  containsSub pat.toList s.toList

/-- JavaScript split on a single-character separator. -/
def splitOnChar (sep : Char) : List Char → List (List Char)
  | [] => [[]]
  | c :: rest =>
    if c = sep then [] :: splitOnChar sep rest
    else
      match splitOnChar sep rest with
      | [] => [[c]]
      | h :: t => (c :: h) :: t

/-- ASCII lowercasing of a character list (JavaScript lowercasing on the
inputs this codebase feeds it). -/
def lowerList (l : List Char) : List Char :=
  l.map Char.toLower

end JsSem

namespace ProjectSidebar

open JsSem

/-- A team member record as returned by the API / built by the client. -/
structure Member where
  user_id : String
  email : String
  name : String
  role : String
deriving Repr, DecidableEq

/-- A project/team record as held in the sidebar's `projects` state. -/
structure Project where
  teamId : String
  teamName : String
  description : String
  members : List Member
  created_at : String
  last_message_at : Option String
  admin_id : Option String := none
deriving Repr, DecidableEq

/-- The authenticated user exposed by the auth context; every field may be
absent (`undefined`). -/
structure User where
  uid : Option String
  email : Option String
  displayName : Option String
deriving Repr, DecidableEq

/-- Function getMockProjects from ProjectSidebar: the fixed two-project demo
dataset used in offline mode.  `now` is `Date.now()` in milliseconds and
`toISO` abstracts `new Date(t).toISOString()`. -/
def getMockProjects (user : Option User) (now : Int) (toISO : Int → String) : List Project :=
  [ { teamId := "mock-1"
      teamName := "Sample Project"
      description := "This is a sample project for demonstration"
      members :=
        [ { user_id := jsOrStr (user.bind User.uid) "mock-user"
            email := jsOrStr (user.bind User.email) "user@example.com"
            name := jsOrStr (user.bind User.displayName) "User"
            role := "admin" } ]
      created_at := toISO now
      last_message_at := some (toISO now) },
    { teamId := "mock-2"
      teamName := "Development Team"
      description := "Working on the new features"
      members :=
        [ { user_id := jsOrStr (user.bind User.uid) "mock-user"
            email := jsOrStr (user.bind User.email) "user@example.com"
            name := jsOrStr (user.bind User.displayName) "User"
            role := "admin" },
          { user_id := "mock-dev-1"
            email := "dev1@example.com"
            name := "Developer 1"
            role := "member" } ]
      created_at := toISO (now - 86400000)
      last_message_at := some (toISO (now - 3600000)) } ]

/-- Outcome of the `GET /teams/` fetch, as observed by `fetchProjects`:
a 2xx response with a parsed JSON body (which may or may not be an
array), a non-ok HTTP status, or a thrown fetch-level exception with its
message. -/
inductive TeamsFetchOutcome where
  | ok (data : Option (List Project))
  | httpError (status : Nat)
  | thrown (msg : String)
deriving Repr, DecidableEq

/-- The sidebar state relevant to `fetchProjects`, after the handler has
run to completion, plus the argument `onProjectsLoaded` was called with
(if it was called). -/
structure FetchProjectsResult where
  projects : List Project
  error : Option String
  offlineMode : Bool
  loading : Bool
  onProjectsLoadedArg : Option (List Project)
deriving Repr, DecidableEq

/-- The catch-branch of `fetchProjects`: record the error message, enable
offline mode and install the mock dataset (also reporting it to the
parent). -/
def fetchProjectsCatch (user : Option User) (now : Int) (toISO : Int → String)
    (errMsg : String) : FetchProjectsResult :=
  { projects := getMockProjects user now toISO
    error := some (jsOrStr (some errMsg) "Failed to load projects")
    offlineMode := true
    loading := false
    onProjectsLoadedArg := some (getMockProjects user now toISO) }

/-- Function fetchProjects from ProjectSidebar.  `token` is the result of
`getIdToken()` (`none` for `null`/`undefined`); a missing or empty token
throws before the fetch.  401, 500 and other non-404 failure statuses
throw and are handled by the catch-branch; 404 installs the empty list
and returns early; a 2xx response installs the body when it is an array
and `[]` otherwise, notifying the parent. -/
def fetchProjects (user : Option User) (now : Int) (toISO : Int → String)
    (token : Option String) (resp : TeamsFetchOutcome) : FetchProjectsResult :=
  if !strTruthy token then
    fetchProjectsCatch user now toISO "No authentication token available"
  else
    match resp with
    | .ok data =>
        let projectsData := data.getD []
        { projects := projectsData
          error := none
          offlineMode := false
          loading := false
          onProjectsLoadedArg := some projectsData }
    | .httpError status =>
        if status = 401 then
          fetchProjectsCatch user now toISO "Authentication failed. Please login again."
        else if status = 500 then
          fetchProjectsCatch user now toISO "Server error. Please try again later."
        else if status = 404 then
          { projects := []
            error := none
            offlineMode := false
            loading := false
            onProjectsLoadedArg := none }
        else
          fetchProjectsCatch user now toISO ("Failed to fetch projects: " ++ toString status)
    | .thrown msg =>
        fetchProjectsCatch user now toISO msg

/-- The member record that `getMockProjects` builds for the signed-in
user (shared by both demo projects). -/
def mockSelfMember (user : Option User) : Member :=
  { user_id := jsOrStr (user.bind User.uid) "mock-user"
    email := jsOrStr (user.bind User.email) "user@example.com"
    name := jsOrStr (user.bind User.displayName) "User"
    role := "admin" }

/-- Observable effects emitted by `handleDeleteProject`, in order. -/
inductive SidebarEvent where
  | showConfirm (msg : String)
  | deleteRequest (projectId : String)
  | showSuccess (msg : String)
  | showError (msg : String)
  | projectSelect (arg : Option String)
  | refetchProjects
deriving Repr, DecidableEq

/-- Function handleDeleteProject from ProjectSidebar, as the ordered trace of
effects it emits.  `confirmed` is whether the user confirms the blocking
dialog (the continuation runs only then); `deleteOk` is whether the
DELETE fetch resolves with an ok response (a thrown fetch or a non-ok
status both reach the catch branch, which shows a fixed error toast). -/
def handleDeleteProject (selectedProject : Option Project) (projectId : String)
    (confirmed : Bool) (deleteOk : Bool) : List SidebarEvent :=
  .showConfirm "Are you sure you want to delete this project?" ::
  (if !confirmed then []
   else
     .deleteRequest projectId ::
     (if deleteOk then
        .showSuccess "Project deleted successfully" ::
        ((if selectedProject.map Project.teamId = some projectId then
            [.projectSelect none]
          else []) ++ [.refetchProjects])
      else [.showError "Failed to delete project"]))

end ProjectSidebar

namespace InviteNotifications

/-- A pending invite record as returned by `GET /teams/invites/my`. -/
structure Invite where
  invite_id : String
  inviter_name : Option String
  inviter_email : String
  team_name : String
  created_at : String
deriving Repr, DecidableEq

/-- Observable effects emitted by `handleInvite`, in order. -/
inductive InviteEvent where
  | post (inviteId : String) (action : String)
  | showSuccess (msg : String)
  | showError (msg : String)
  | refetchInvites
  | inviteHandled
deriving Repr, DecidableEq

/-- Function handleInvite from InviteNotifications, as the new `invites` state
paired with the ordered trace of effects.  Inputs: the current invite
list, the invite id and action string, whether `getIdToken` throws,
whether the POST resolves ok, whether the parent supplied an
`onInviteHandled` callback, and the list `fetchInvites` would install on
its success (`none` when that refetch fails and leaves the state
alone). -/
def handleInvite (invites : List Invite) (inviteId action : String)
    (tokenThrows : Bool) (postOk : Bool) (hasCallback : Bool)
    (refetchResult : Option (List Invite)) : List Invite × List InviteEvent :=
  if tokenThrows then
    (invites, [.showError ("Failed to " ++ action ++ " invite")])
  else if postOk then
    (refetchResult.getD invites,
     .post inviteId action ::
     .showSuccess ("Invite " ++ action ++ "ed successfully") ::
     .refetchInvites ::
     (if action = "accept" && hasCallback then [.inviteHandled] else []))
  else
    (invites,
     [.post inviteId action, .showError ("Failed to " ++ action ++ " invite")])

end InviteNotifications

namespace AddProjectModal

open JsSem

/-- The modal's `formData` state. -/
structure FormData where
  teamName : String
  description : String
  memberEmails : String
deriving Repr, DecidableEq

/-- The JSON body of the `POST /teams/` request. -/
structure ProjectPayload where
  teamName : String
  description : String
  member_emails : List String
deriving Repr, DecidableEq

/-- Observable effects emitted by the modal's submit handler, in order. -/
inductive ModalEvent where
  | postTeams (body : ProjectPayload)
  | projectCreated (p : ProjectSidebar.Project)
  | close
deriving Repr, DecidableEq

/-- Outcome of the submit attempt: `getIdToken` throwing, an ok response
with the created project, a non-ok response (whose JSON body may carry a
`detail` message), or a thrown fetch-level exception. -/
inductive CreateOutcome where
  | tokenThrown (msg : String)
  | ok (newProject : ProjectSidebar.Project)
  | httpError (detail : Option String)
  | fetchThrown (msg : String)
deriving Repr, DecidableEq

/-- The cleared form installed after a (possibly mock) success. -/
def emptyForm : FormData :=
  { teamName := "", description := "", memberEmails := "" }

/-- Member-email parsing in the submit handler: split on commas, trim,
drop empties. -/
def parseMemberEmails (s : String) : List String :=
  ((splitOnChar ',' s.toList).map (fun cs => jsTrim (String.mk cs))).filter
    (fun e => 0 < e.length)

/-- The locally synthesized mock project built when the backend is
unreachable (message contains a network-failure marker). -/
def mockProject (fd : FormData) (now : Int) (toISO : Int → String) : ProjectSidebar.Project :=
  { teamId := "mock-" ++ toString now
    teamName := jsTrim fd.teamName
    description := jsTrim fd.description
    members :=
      [ { user_id := "mock-user"
          email := "user@example.com"
          name := "User"
          role := "admin" } ]
    created_at := toISO now
    last_message_at := none }

/-- The modal state after the submit handler has run, plus the ordered
trace of emitted effects. -/
structure SubmitResult where
  error : Option String
  formData : FormData
  loading : Bool
  events : List ModalEvent
deriving Repr, DecidableEq

/-- The catch-branch of the submit handler: a message containing
a network-failure marker degrades to a mock project and a visual
success; anything else surfaces the message and leaves the modal
open.  `pre` is the trace emitted before the error was thrown. -/
def handleSubmitCatch (fd : FormData) (now : Int) (toISO : Int → String)
    (msg : String) (pre : List ModalEvent) : SubmitResult :=
  if strIncludes msg "Failed to fetch" || strIncludes msg "NetworkError" then
    { error := none
      formData := emptyForm
      loading := false
      events := pre ++ [.projectCreated (mockProject fd now toISO), .close] }
  else
    { error := some (jsOrStr (some msg) "Failed to create project")
      formData := fd
      loading := false
      events := pre }

/-- Function handleSubmit from AddProjectModal: validate the trimmed
project name before any request, then POST the payload and either report
the created project and close, or run the catch-branch. -/
def handleSubmit (fd : FormData) (outcome : CreateOutcome) (now : Int)
    (toISO : Int → String) : SubmitResult :=
  if jsTrim fd.teamName = "" then
    { error := some "Project name is required"
      formData := fd
      loading := false
      events := [] }
  else
    let payload : ProjectPayload :=
      { teamName := jsTrim fd.teamName
        description := jsTrim fd.description
        member_emails := parseMemberEmails fd.memberEmails }
    match outcome with
    | .tokenThrown msg => handleSubmitCatch fd now toISO msg []
    | .ok p =>
        { error := none
          formData := emptyForm
          loading := false
          events := [.postTeams payload, .projectCreated p, .close] }
    | .httpError detail =>
        handleSubmitCatch fd now toISO (jsOrStr detail "Failed to create project")
          [.postTeams payload]
    | .fetchThrown msg => handleSubmitCatch fd now toISO msg [.postTeams payload]

end AddProjectModal

namespace ThinkBuddy

open JsSem

/-- The boilerplate subheading keywords recognized by the chat-text
formatter (the alternation of its two fixed patterns). -/
def subheadingKeywords : List String :=
  ["summary", "important points", "key points", "main topics",
   "answer", "solution", "steps", "recommendations"]

/-- Whether a (trimmed, lowercased-on-the-fly) line consists of just a
subheading keyword, an optional colon and trailing whitespace. -/
def isSubheadingOnly (s : String) : Bool :=
  let l := lowerList s.toList
  subheadingKeywords.any (fun kw =>
    startsWithList kw.toList l &&
    (let rest := l.drop kw.toList.length
     rest.all isJsWhitespace ||
     (match rest with
      | ':' :: tail => tail.all isJsWhitespace
      | _ => false)))

/-- Removal of a subheading keyword-plus-colon label (and the whitespace
after it) from the start of a line, case-insensitively. -/
def stripSubheadingLabel (s : String) : String :=
  match subheadingKeywords.find? (fun kw =>
      startsWithList (kw.toList ++ [':']) (lowerList s.toList)) with
  | some kw => String.mk ((s.toList.drop (kw.toList.length + 1)).dropWhile isJsWhitespace)
  | none => s

/-- After one or more digits: a period or closing parenthesis followed by
a whitespace character. -/
def numberedTail : List Char → Bool
  | [] => false
  | c :: rest =>
    if c.isDigit then numberedTail rest
    else
      (c = '.' || c = ')') &&
      (match rest with
       | d :: _ => isJsWhitespace d
       | [] => false)

/-- Pattern for numbered-list lines: digits, then a period or closing
parenthesis, then whitespace. -/
def startsNumbered : List Char → Bool
  | [] => false
  | c :: rest => c.isDigit && numberedTail rest

/-- Pattern for bullet lines: a dash or bullet glyph then whitespace. -/
def startsBullet : List Char → Bool
  | c :: d :: _ => (c = '-' || c = '•') && isJsWhitespace d
  | _ => false

/-- Pattern for short-title lines: an ASCII capital, 2 to 30 non-colon
characters, a colon, then only whitespace to the end of the line. -/
def shortTitleColon : List Char → Bool
  | [] => false
  | c :: rest =>
    ('A' ≤ c && c ≤ 'Z') &&
    (let before := rest.takeWhile (fun x => !(x = ':'))
     match rest.dropWhile (fun x => !(x = ':')) with
     | ':' :: tail =>
        decide (2 ≤ before.length) && decide (before.length ≤ 30) &&
        tail.all isJsWhitespace
     | _ => false)

/-- The heading test applied to a processed line. -/
def isHeadingLine (s : String) : Bool :=
  startsNumbered s.toList || startsBullet s.toList || shortTitleColon s.toList

/-- A styled line record produced by the chat-text formatter. -/
inductive RenderedLine where
  | br
  | heading (text : String)
  | plain (text : String)
deriving Repr, DecidableEq

/-- Per-line processing inside `formatMessageText`: trim; drop pure
subheading lines (rendered as nothing); strip a leading subheading
label; blank lines become a break; then classify as heading or plain. -/
def formatLine (line : String) : Option RenderedLine :=
  let t0 := jsTrim line
  if isSubheadingOnly t0 then none
  else
    let t := stripSubheadingLabel t0
    if t = "" then some .br
    else if isHeadingLine t then some (.heading t)
    else some (.plain t)

/-- Function formatMessageText from ThinkBuddyAssistant: `none` for a
falsy input; otherwise remove every asterisk, split on newlines and
process each line (a `none` entry is a skipped subheading line, which
React renders as nothing). -/
def formatMessageText (text : String) : Option (List (Option RenderedLine)) :=
  if text = "" then none
  else
    some ((splitOnChar '\n' (text.toList.filter (fun c => !(c = '*')))).map
      (fun cs => formatLine (String.mk cs)))

/-- The line records actually rendered: the non-skipped entries, in
order. -/
def renderedLines (text : String) : List RenderedLine :=
  ((formatMessageText text).getD []).reduceOption

/-- The text carried by a rendered line record. -/
def lineText : RenderedLine → String
  | .br => ""
  | .heading t => t
  | .plain t => t

/-- A grounding source excerpt attached to an assistant reply. -/
structure Source where
  sender : String
  content : String
deriving Repr, DecidableEq

/-- A chat message in the assistant's scrollback state. -/
structure ChatMessage where
  id : Int
  role : String
  content : String
  timestamp : String
  sources : List Source := []
  isError : Bool := false
deriving Repr, DecidableEq

/-- A persisted history entry as returned by the history endpoint. -/
structure HistEntry where
  role : String
  content : String
  timestamp : String
deriving Repr, DecidableEq

/-- Outcome of the history fetch: an ok response whose body may or may
not carry a `history` array, or a failure (non-ok response or thrown
error). -/
inductive HistoryOutcome where
  | ok (history : Option (List HistEntry))
  | failure (msg : String)
deriving Repr, DecidableEq

/-- The URL used by `loadChatHistory`: scoped by `project_id` exactly
when the selected project's id is truthy. -/
def historyUrl (apiBase : String) (projectId : Option String) : String :=
  if strTruthy projectId then
    apiBase ++ "/api/assistant/history?project_id=" ++ projectId.getD ""
  else
    apiBase ++ "/api/assistant/history"

/-- The fixed part of the project-scoped welcome text. -/
def projectWelcome (teamName : String) : String :=
  "Hello! I'm ThinkBuddy. I can help you with questions about " ++ teamName ++
  ". I have access to all team messages and can provide context-aware assistance!"

/-- The welcome text used when no project context is active. -/
def generalWelcome : String :=
  "Hello! I'm ThinkBuddy, your AI assistant. Select a project to get started with context-aware assistance!"

/-- The single synthesized welcome message installed when the fetched
history is empty or absent. -/
def welcomeMessage (selectedProject : Option ProjectSidebar.Project)
    (nowIso : String) : ChatMessage :=
  { id := 1
    role := "assistant"
    content :=
      match selectedProject with
      | some p => if p.teamId = "" then generalWelcome else projectWelcome p.teamName
      | none => generalWelcome
    timestamp := nowIso }

/-- The assistant state produced by `loadChatHistory`, plus the URL it
fetched. -/
structure LoadHistoryResult where
  url : String
  messages : List ChatMessage
  error : Option String
  loading : Bool
deriving Repr, DecidableEq

/-- Function loadChatHistory from ThinkBuddyAssistant: fetch the
(possibly project-scoped) history; a non-empty history replaces the
message list wholesale; an empty or missing history installs the single
welcome message; a failure installs a fallback greeting and an error. -/
def loadChatHistory (apiBase : String)
    (selectedProject : Option ProjectSidebar.Project)
    (outcome : HistoryOutcome) (nowIso : String) : LoadHistoryResult :=
  let projectId := selectedProject.map ProjectSidebar.Project.teamId
  let url := historyUrl apiBase projectId
  match outcome with
  | .ok history =>
      match history with
      | some h =>
          if 0 < h.length then
            { url := url
              messages := h.enum.map (fun e =>
                { id := (e.1 : Int)
                  role := e.2.role
                  content := e.2.content
                  timestamp := e.2.timestamp })
              error := none
              loading := false }
          else
            { url := url
              messages := [welcomeMessage selectedProject nowIso]
              error := none
              loading := false }
      | none =>
          { url := url
            messages := [welcomeMessage selectedProject nowIso]
            error := none
            loading := false }
  | .failure _ =>
      { url := url
        messages :=
          [ { id := 1
              role := "assistant"
              content := "Hello! I'm ThinkBuddy, your AI assistant. How can I help you today?"
              timestamp := nowIso } ]
        error := some "Failed to load chat history"
        loading := false }

/-- The effect of the project-selection effect hook: the old in-memory
message list is ignored and the state is rebuilt by `loadChatHistory`
for the new selection. -/
def onProjectChange (_oldMessages : List ChatMessage) (apiBase : String)
    (newProject : Option ProjectSidebar.Project)
    (outcome : HistoryOutcome) (nowIso : String) : LoadHistoryResult :=
  loadChatHistory apiBase newProject outcome nowIso

/-- The assistant state relevant to `handleSendMessage`. -/
structure AssistantState where
  messages : List ChatMessage
  inputMessage : String
  isTyping : Bool
  error : Option String
deriving Repr, DecidableEq

/-- The JSON body of the `POST /api/assistant/chat` request. -/
structure ChatRequest where
  message : String
  project_context : Option String
  use_rag : Bool
deriving Repr, DecidableEq

/-- Outcome of the chat POST: an ok response with the reply, timestamp
and optional sources, a non-ok response (whose body may carry a
`detail`), or a thrown fetch-level error. -/
inductive ChatOutcome where
  | ok (response : String) (timestamp : String) (sources : Option (List Source))
  | httpError (detail : Option String)
  | thrown (msg : String)
deriving Repr, DecidableEq

/-- The state after `handleSendMessage` has run, plus the chat request
it issued (`none` when the guard returned early and nothing was sent). -/
structure SendResult where
  state : AssistantState
  request : Option ChatRequest
deriving Repr, DecidableEq

/-- The catch-branch of `handleSendMessage`: record the error and append
an error-flagged assistant turn. -/
def sendMessageCatch (st1 : AssistantState) (now : Int) (nowIso : String)
    (msg : String) : AssistantState :=
  { st1 with
    error := some msg
    messages := st1.messages ++
      [ { id := now + 1
          role := "assistant"
          content := "Sorry, I encountered an error: " ++ msg ++ ". Please try again."
          timestamp := nowIso
          isError := true } ]
    isTyping := false }

/-- Function handleSendMessage from ThinkBuddyAssistant.  The effective
message is the custom message if truthy, else the trimmed input; a falsy
effective message or an in-flight request makes the call a no-op.
Otherwise the user's turn is appended optimistically, the request is
issued, and the assistant turn (or an error-flagged turn) is appended on
completion. -/
def handleSendMessage (st : AssistantState) (customMessage : Option String)
    (projectId : Option String) (now : Int) (nowIso : String)
    (outcome : ChatOutcome) : SendResult :=
  let messageToSend := jsOrStr customMessage (jsTrim st.inputMessage)
  if messageToSend = "" || st.isTyping then
    { state := st, request := none }
  else
    let userMessage : ChatMessage :=
      { id := now, role := "user", content := messageToSend, timestamp := nowIso }
    let st1 : AssistantState :=
      { messages := st.messages ++ [userMessage]
        inputMessage := ""
        isTyping := true
        error := none }
    let req : ChatRequest :=
      { message := messageToSend, project_context := projectId, use_rag := true }
    match outcome with
    | .ok response timestamp sources =>
        { state :=
            { st1 with
              messages := st1.messages ++
                [ { id := now + 1
                    role := "assistant"
                    content := response
                    timestamp := timestamp
                    sources := sources.getD [] } ]
              isTyping := false }
          request := some req }
    | .httpError detail =>
        { state := sendMessageCatch st1 now nowIso (jsOrStr detail "Failed to get response")
          request := some req }
    | .thrown msg =>
        { state := sendMessageCatch st1 now nowIso msg
          request := some req }

end ThinkBuddy

namespace Fixtures

/-- A concrete signed-in user used as a test input. -/
def demoUser : ProjectSidebar.User :=
  { uid := some "u1", email := some "u1@example.com", displayName := some "User One" }

/-- A concrete timestamp formatter used as a test input. -/
def demoISO : Int → String := fun _ => "2024-01-01T00:00:00.000Z"

/-- A concrete project used as a test input. -/
def demoProject : ProjectSidebar.Project :=
  { teamId := "p1"
    teamName := "Alpha"
    description := "d"
    members := []
    created_at := "c"
    last_message_at := none }

/-- A concrete filled-in form used as a test input. -/
def demoForm : AddProjectModal.FormData :=
  { teamName := "  My Project  ", description := " desc ", memberEmails := "a@x, ,b@y" }

/-- A concrete whitespace-only form used as a test input. -/
def blankForm : AddProjectModal.FormData :=
  { teamName := "   ", description := "", memberEmails := "" }

/-- A concrete invite list used as a test input. -/
def demoInvites : List InviteNotifications.Invite :=
  [ { invite_id := "i1"
      inviter_name := some "Ann"
      inviter_email := "ann@example.com"
      team_name := "Alpha"
      created_at := "c" } ]

/-- A concrete idle assistant state used as a test input. -/
def idleAssistant : ThinkBuddy.AssistantState :=
  { messages := [], inputMessage := "", isTyping := false, error := none }

/-- A concrete busy assistant state used as a test input. -/
def busyAssistant : ThinkBuddy.AssistantState :=
  { messages := [], inputMessage := "hi", isTyping := true, error := none }

end Fixtures

namespace JsSem

theorem dropWhile_idem (p : α → Bool) (l : List α) :
    (l.dropWhile p).dropWhile p = l.dropWhile p := by
  induction l with
  | nil => rfl
  | cons a as ih =>
    cases hpa : p a with
    | true => simp [List.dropWhile_cons, hpa, ih]
    | false => simp [List.dropWhile_cons, hpa]

theorem head?_dropWhile_false (p : α → Bool) (l : List α) (a : α)
    (h : (l.dropWhile p).head? = some a) : p a = false := by
  induction l with
  | nil => cases h
  | cons b bs ih =>
    rw [List.dropWhile_cons] at h
    cases hpb : p b with
    | true => rw [hpb] at h; simp only [if_pos] at h; exact ih h
    | false =>
      rw [hpb] at h
      simp only [Bool.false_eq_true, if_false, List.head?_cons, Option.some.injEq] at h
      exact h ▸ hpb

theorem dropWhile_eq_self_of_head (p : α → Bool) (l : List α)
    (h : ∀ a, l.head? = some a → p a = false) : l.dropWhile p = l := by
  cases l with
  | nil => rfl
  | cons a as =>
    have ha := h a rfl
    simp [List.dropWhile_cons, ha]

theorem getLast?_dropWhile (p : α → Bool) (l : List α)
    (h : l.dropWhile p ≠ []) : (l.dropWhile p).getLast? = l.getLast? := by
  induction l with
  | nil => exact absurd rfl h
  | cons a as ih =>
    cases hpa : p a with
    | false => rw [List.dropWhile_cons_of_neg (by simp [hpa])]
    | true =>
      rw [List.dropWhile_cons_of_pos (by simp [hpa])] at h ⊢
      cases as with
      | nil => exact absurd rfl h
      | cons b bs => rw [List.getLast?_cons_cons]; exact ih h

theorem trimList_idem (l : List Char) : trimList (trimList l) = trimList l := by
  unfold trimList
  have h1 : List.dropWhile isJsWhitespace
      (((l.dropWhile isJsWhitespace).reverse.dropWhile isJsWhitespace).reverse) =
      ((l.dropWhile isJsWhitespace).reverse.dropWhile isJsWhitespace).reverse := by
    apply dropWhile_eq_self_of_head
    intro a ha
    rw [List.head?_reverse] at ha
    have hne : (l.dropWhile isJsWhitespace).reverse.dropWhile isJsWhitespace ≠ [] := by
      intro h0
      rw [h0] at ha
      cases ha
    rw [getLast?_dropWhile _ _ hne, List.getLast?_reverse] at ha
    exact head?_dropWhile_false _ _ _ ha
  rw [h1, List.reverse_reverse, dropWhile_idem]

theorem jsTrim_idem (s : String) : jsTrim (jsTrim s) = jsTrim s := by
  show String.mk (trimList (String.mk (trimList s.toList)).toList) = String.mk (trimList s.toList)
  rw [show (String.mk (trimList s.toList)).toList = trimList s.toList from rfl, trimList_idem]

theorem get?_append_length (l : List α) (u : α) (rest : List α) :
    (l ++ u :: rest).get? l.length = some u := by
  induction l with
  | nil => rfl
  | cons a as ih => simpa using ih

end JsSem

namespace ProjectSidebar

open JsSem

theorem getMockProjects_names (user : Option User) (now : Int) (toISO : Int → String) :
    (getMockProjects user now toISO).map Project.teamName =
      ["Sample Project", "Development Team"] := rfl

theorem mockSelfMember_mem (user : Option User) (now : Int) (toISO : Int → String) :
    ∀ p ∈ getMockProjects user now toISO, mockSelfMember user ∈ p.members := by
  intro p hp
  simp only [getMockProjects, List.mem_cons, List.not_mem_nil, or_false] at hp
  rcases hp with rfl | rfl
  · exact List.mem_cons_self _ _
  · exact List.mem_cons_self _ _

end ProjectSidebar

open JsSem ProjectSidebar InviteNotifications AddProjectModal ThinkBuddy Fixtures

/-- C1: for every HTTP failure status other than 404 on the sidebar's
project-list fetch, and for every fetch-level exception or missing auth
token, fetchProjects ends with offlineMode true and the projects state
equal to exactly the two built-in demo projects (named "Sample Project"
and "Development Team"), each of which contains the signed-in user as a
member with role "admin". -/
theorem fetchProjects_failure_offline_demo
    (user : Option User) (now : Int) (toISO : Int → String)
    (token : Option String) (resp : TeamsFetchOutcome)
    (hfail : strTruthy token = false ∨
      (∃ s, resp = .httpError s ∧ s ≠ 404) ∨ (∃ m, resp = .thrown m)) :
    (fetchProjects user now toISO token resp).offlineMode = true ∧
    (fetchProjects user now toISO token resp).projects = getMockProjects user now toISO ∧
    (fetchProjects user now toISO token resp).projects.map Project.teamName =
      ["Sample Project", "Development Team"] ∧
    ∀ p ∈ (fetchProjects user now toISO token resp).projects,
      mockSelfMember user ∈ p.members ∧ (mockSelfMember user).role = "admin" := by
  have hcatch : ∃ msg, fetchProjects user now toISO token resp =
      fetchProjectsCatch user now toISO msg := by
    cases htok : strTruthy token with
    | false => exact ⟨"No authentication token available", by simp [fetchProjects, htok]⟩
    | true =>
      rcases hfail with h | ⟨s, rfl, hs⟩ | ⟨m, rfl⟩
      · rw [htok] at h; cases h
      · by_cases h1 : s = 401
        · exact ⟨"Authentication failed. Please login again.",
            by simp [fetchProjects, htok, h1]⟩
        · by_cases h2 : s = 500
          · exact ⟨"Server error. Please try again later.",
              by simp [fetchProjects, htok, h1, h2]⟩
          · exact ⟨"Failed to fetch projects: " ++ toString s,
              by simp [fetchProjects, htok, h1, h2, hs]⟩
      · exact ⟨m, by simp [fetchProjects, htok]⟩
  obtain ⟨msg, heq⟩ := hcatch
  rw [heq]
  refine ⟨rfl, rfl, getMockProjects_names user now toISO, ?_⟩
  intro p hp
  exact ⟨mockSelfMember_mem user now toISO p hp, rfl⟩

/-- Witness for C1 at a concrete 500 failure. -/
theorem fetchProjects_failure_offline_demo_witness :
    (fetchProjects (some demoUser) 0 demoISO (some "tok")
      (.httpError 500)).offlineMode = true ∧
    (fetchProjects (some demoUser) 0 demoISO (some "tok")
      (.httpError 500)).projects = getMockProjects (some demoUser) 0 demoISO ∧
    (fetchProjects (some demoUser) 0 demoISO (some "tok")
      (.httpError 500)).projects.map Project.teamName =
      ["Sample Project", "Development Team"] := by
  have h := fetchProjects_failure_offline_demo (some demoUser) 0 demoISO
    (some "tok") (.httpError 500) (Or.inr (Or.inl ⟨500, rfl, by decide⟩))
  exact ⟨h.1, h.2.1, h.2.2.1⟩

/-- C2: an HTTP 404 on the project-list fetch yields the empty project
list with offlineMode false and no error message (and no parent
notification). -/
theorem fetchProjects_notFound_empty
    (user : Option User) (now : Int) (toISO : Int → String) (token : Option String)
    (htok : strTruthy token = true) :
    fetchProjects user now toISO token (.httpError 404) =
      { projects := [], error := none, offlineMode := false, loading := false,
        onProjectsLoadedArg := none } := by
  simp [fetchProjects, htok]

/-- Witness for C2 at a concrete token. -/
theorem fetchProjects_notFound_empty_witness :
    fetchProjects (some demoUser) 0 demoISO (some "tok") (.httpError 404) =
      { projects := [], error := none, offlineMode := false, loading := false,
        onProjectsLoadedArg := none } :=
  fetchProjects_notFound_empty _ _ _ _ (by decide)

/-- C3: when the confirmed DELETE succeeds and the deleted project is the
selected one, the emitted trace is exactly confirm, DELETE, success
toast, selection cleared (onProjectSelect none, index 3), refetch (index
4) — so the selection is cleared strictly before the refetch; when the
deleted project is not the selected one, no selection callback is ever
emitted. -/
theorem handleDeleteProject_clears_selection_before_refetch
    (sp : Option Project) (pid : String) :
    (sp.map Project.teamId = some pid →
      handleDeleteProject sp pid true true =
        [.showConfirm "Are you sure you want to delete this project?",
         .deleteRequest pid,
         .showSuccess "Project deleted successfully",
         .projectSelect none,
         .refetchProjects] ∧
      (handleDeleteProject sp pid true true).get? 3 = some (.projectSelect none) ∧
      (handleDeleteProject sp pid true true).get? 4 = some .refetchProjects) ∧
    (sp.map Project.teamId ≠ some pid →
      ∀ (confirmed deleteOk : Bool) (arg : Option String),
        SidebarEvent.projectSelect arg ∉ handleDeleteProject sp pid confirmed deleteOk) := by
  constructor
  · intro h
    have htr : handleDeleteProject sp pid true true =
        [.showConfirm "Are you sure you want to delete this project?",
         .deleteRequest pid,
         .showSuccess "Project deleted successfully",
         .projectSelect none,
         .refetchProjects] := by
      simp [handleDeleteProject, h]
    exact ⟨htr, by rw [htr]; rfl, by rw [htr]; rfl⟩
  · intro h confirmed deleteOk arg hmem
    cases confirmed <;> cases deleteOk <;>
      simp [handleDeleteProject, h] at hmem

/-- Witness for C3 at concrete projects. -/
theorem handleDeleteProject_clears_selection_before_refetch_witness :
    handleDeleteProject (some demoProject) "p1" true true =
      [.showConfirm "Are you sure you want to delete this project?",
       .deleteRequest "p1",
       .showSuccess "Project deleted successfully",
       .projectSelect none,
       .refetchProjects] ∧
    (handleDeleteProject (some demoProject) "p1" true true).get? 3 =
      some (.projectSelect none) ∧
    (handleDeleteProject (some demoProject) "p1" true true).get? 4 =
      some .refetchProjects ∧
    SidebarEvent.projectSelect none ∉ handleDeleteProject (some demoProject) "p2" true true := by
  have h1 := (handleDeleteProject_clears_selection_before_refetch
    (some demoProject) "p1").1 (by decide)
  have h2 := (handleDeleteProject_clears_selection_before_refetch
    (some demoProject) "p2").2 (by decide) true true none
  exact ⟨h1.1, h1.2.1, h1.2.2, h2⟩

/-- C4: when the invite POST succeeds with action "accept", the parent
refresh callback (onInviteHandled) is invoked and the invite list is
refetched; when it succeeds with action "reject", the parent refresh
callback is never invoked while the invite list is still refetched. -/
theorem handleInvite_accept_triggers_refresh
    (invites : List Invite) (inviteId : String)
    (refetchResult : Option (List Invite)) :
    (InviteEvent.inviteHandled ∈
        (handleInvite invites inviteId "accept" false true true refetchResult).2 ∧
     InviteEvent.refetchInvites ∈
        (handleInvite invites inviteId "accept" false true true refetchResult).2) ∧
    (InviteEvent.inviteHandled ∉
        (handleInvite invites inviteId "reject" false true true refetchResult).2 ∧
     InviteEvent.refetchInvites ∈
        (handleInvite invites inviteId "reject" false true true refetchResult).2) := by
  refine ⟨⟨?_, ?_⟩, ⟨?_, ?_⟩⟩ <;> simp [handleInvite]

/-- C9: when the invite POST fails (the token getter throws or the
response is not ok), an error toast is shown, the local invite list is
exactly what it was before, no refetch is issued, the success toast is
never shown and the parent refresh callback is not invoked. -/
theorem handleInvite_failure_keeps_state
    (invites : List Invite) (inviteId action : String) (hasCallback : Bool)
    (refetchResult : Option (List Invite)) (tokenThrows postOk : Bool)
    (hfail : tokenThrows = true ∨ postOk = false) :
    (handleInvite invites inviteId action tokenThrows postOk hasCallback refetchResult).1 =
      invites ∧
    InviteEvent.showError ("Failed to " ++ action ++ " invite") ∈
      (handleInvite invites inviteId action tokenThrows postOk hasCallback refetchResult).2 ∧
    InviteEvent.refetchInvites ∉
      (handleInvite invites inviteId action tokenThrows postOk hasCallback refetchResult).2 ∧
    InviteEvent.inviteHandled ∉
      (handleInvite invites inviteId action tokenThrows postOk hasCallback refetchResult).2 ∧
    ∀ msg, InviteEvent.showSuccess msg ∉
      (handleInvite invites inviteId action tokenThrows postOk hasCallback refetchResult).2 := by
  rcases hfail with rfl | rfl
  · simp [handleInvite]
  · cases tokenThrows <;> simp [handleInvite]

/-- Witness for C9 for a concrete failed accept attempt. -/
theorem handleInvite_failure_keeps_state_witness :
    (handleInvite demoInvites "i1" "accept" false false true none).1 = demoInvites ∧
    InviteEvent.showError ("Failed to " ++ "accept" ++ " invite") ∈
      (handleInvite demoInvites "i1" "accept" false false true none).2 ∧
    InviteEvent.refetchInvites ∉
      (handleInvite demoInvites "i1" "accept" false false true none).2 ∧
    InviteEvent.inviteHandled ∉
      (handleInvite demoInvites "i1" "accept" false false true none).2 := by
  have h := handleInvite_failure_keeps_state demoInvites "i1" "accept" true none false false
    (Or.inr rfl)
  exact ⟨h.1, h.2.1, h.2.2.1, h.2.2.2.1⟩

/-- C5: on the sample input, the formatter removes every asterisk, skips
the standalone "Summary:" line, and renders exactly three records in
order: heading "1. Point one", heading "- Point two", plain "Plain
text". -/
theorem formatMessageText_sample :
    formatMessageText "**Summary:**\n1. Point one\n- Point two\nPlain text" =
      some [none,
            some (RenderedLine.heading "1. Point one"),
            some (RenderedLine.heading "- Point two"),
            some (RenderedLine.plain "Plain text")] ∧
    renderedLines "**Summary:**\n1. Point one\n- Point two\nPlain text" =
      [RenderedLine.heading "1. Point one",
       RenderedLine.heading "- Point two",
       RenderedLine.plain "Plain text"] ∧
    ((renderedLines "**Summary:**\n1. Point one\n- Point two\nPlain text").map lineText).all
      (fun t => t.toList.all (fun c => !(c = '*'))) = true := by
  decide

/-- C6: submitting AddProjectModal with an empty or whitespace-only
project name sets the validation error and emits no event at all (in
particular no POST), and a POST event can appear only when the trimmed
project name is non-empty. -/
theorem addProject_empty_name_no_request
    (fd : FormData) (outcome : CreateOutcome) (now : Int) (toISO : Int → String) :
    (jsTrim fd.teamName = "" →
      handleSubmit fd outcome now toISO =
        { error := some "Project name is required", formData := fd, loading := false,
          events := [] }) ∧
    (∀ body, ModalEvent.postTeams body ∈ (handleSubmit fd outcome now toISO).events →
      jsTrim fd.teamName ≠ "") := by
  constructor
  · intro h
    simp [handleSubmit, h]
  · intro body hmem h
    simp [handleSubmit, h] at hmem

/-- Witness for C6 at a whitespace-only form. -/
theorem addProject_empty_name_no_request_witness :
    handleSubmit blankForm (.ok demoProject) 0 demoISO =
      { error := some "Project name is required", formData := blankForm,
        loading := false, events := [] } :=
  (addProject_empty_name_no_request blankForm (.ok demoProject) 0 demoISO).1 (by decide)

/-- C8: when the submit attempt throws with a message containing a
network-failure marker, the handler completes as a visual success — the
mock project carrying the entered (trimmed) name and description is
passed to onProjectCreated, the form is reset, the modal closes and no
error is shown; for any other failure message the error is shown, the
form is kept and the modal stays open with no project reported. -/
theorem addProject_network_failure_fallback
    (fd : FormData) (now : Int) (toISO : Int → String) (msg : String)
    (hname : jsTrim fd.teamName ≠ "") :
    ((strIncludes msg "Failed to fetch" || strIncludes msg "NetworkError") = true →
      (handleSubmit fd (.fetchThrown msg) now toISO).error = none ∧
      (handleSubmit fd (.fetchThrown msg) now toISO).formData = emptyForm ∧
      ModalEvent.projectCreated (mockProject fd now toISO) ∈
        (handleSubmit fd (.fetchThrown msg) now toISO).events ∧
      ModalEvent.close ∈ (handleSubmit fd (.fetchThrown msg) now toISO).events ∧
      (mockProject fd now toISO).teamName = jsTrim fd.teamName ∧
      (mockProject fd now toISO).description = jsTrim fd.description) ∧
    ((strIncludes msg "Failed to fetch" || strIncludes msg "NetworkError") = false →
      (handleSubmit fd (.fetchThrown msg) now toISO).error =
        some (jsOrStr (some msg) "Failed to create project") ∧
      (handleSubmit fd (.fetchThrown msg) now toISO).formData = fd ∧
      ModalEvent.close ∉ (handleSubmit fd (.fetchThrown msg) now toISO).events ∧
      ∀ p, ModalEvent.projectCreated p ∉ (handleSubmit fd (.fetchThrown msg) now toISO).events) := by
  constructor
  · intro h
    refine ⟨?_, ?_, ?_, ?_, rfl, rfl⟩ <;>
      simp [handleSubmit, handleSubmitCatch, hname, h]
  · intro h
    refine ⟨?_, ?_, ?_, ?_⟩ <;>
      simp [handleSubmit, handleSubmitCatch, hname, h]

/-- Witness for C8 at a concrete network failure. -/
theorem addProject_network_failure_fallback_witness :
    (handleSubmit demoForm (.fetchThrown "Failed to fetch") 5 demoISO).error = none ∧
    (handleSubmit demoForm (.fetchThrown "Failed to fetch") 5 demoISO).formData = emptyForm ∧
    ModalEvent.projectCreated (mockProject demoForm 5 demoISO) ∈
      (handleSubmit demoForm (.fetchThrown "Failed to fetch") 5 demoISO).events ∧
    ModalEvent.close ∈ (handleSubmit demoForm (.fetchThrown "Failed to fetch") 5 demoISO).events ∧
    (mockProject demoForm 5 demoISO).teamName = jsTrim demoForm.teamName ∧
    (mockProject demoForm 5 demoISO).description = jsTrim demoForm.description :=
  (addProject_network_failure_fallback demoForm 5 demoISO "Failed to fetch"
    (by decide)).1 (by decide)

/-- The URL fetched by loadChatHistory, independent of the fetch
outcome. -/
theorem loadChatHistory_url (apiBase : String)
    (sp : Option ProjectSidebar.Project) (outcome : HistoryOutcome) (nowIso : String) :
    (loadChatHistory apiBase sp outcome nowIso).url =
      historyUrl apiBase (sp.map ProjectSidebar.Project.teamId) := by
  cases outcome with
  | ok history =>
    cases history with
    | some h => by_cases hl : 0 < h.length <;> simp [loadChatHistory, hl]
    | none => rfl
  | failure m => rfl

/-- C7: on a project-context change the old in-memory message list is
discarded — the new state does not depend on it and is exactly the
history-fetch result — the fetch is scoped to the new project's id (or
unscoped when no project is selected), an empty or missing fetched
history yields the single synthesized welcome message, and a non-empty
history replaces the list wholesale. -/
theorem assistant_project_change_refetch
    (old1 old2 : List ChatMessage) (apiBase : String)
    (sp : Option ProjectSidebar.Project) (outcome : HistoryOutcome) (nowIso : String)
    (hid : ∀ p, sp = some p → p.teamId ≠ "") :
    onProjectChange old1 apiBase sp outcome nowIso =
      onProjectChange old2 apiBase sp outcome nowIso ∧
    (onProjectChange old1 apiBase sp outcome nowIso).url =
      (match sp with
       | some p => apiBase ++ "/api/assistant/history?project_id=" ++ p.teamId
       | none => apiBase ++ "/api/assistant/history") ∧
    (∀ h, outcome = .ok h → h = none ∨ h = some [] →
      (onProjectChange old1 apiBase sp outcome nowIso).messages =
        [welcomeMessage sp nowIso]) ∧
    (∀ h, outcome = .ok (some h) → 0 < h.length →
      (onProjectChange old1 apiBase sp outcome nowIso).messages =
        h.enum.map (fun e =>
          { id := (e.1 : Int), role := e.2.role, content := e.2.content,
            timestamp := e.2.timestamp })) := by
  refine ⟨rfl, ?_, ?_, ?_⟩
  · rw [show onProjectChange old1 apiBase sp outcome nowIso =
        loadChatHistory apiBase sp outcome nowIso from rfl, loadChatHistory_url]
    cases sp with
    | none => rfl
    | some p =>
      have hne := hid p rfl
      simp [historyUrl, strTruthy, hne]
  · rintro h rfl (rfl | rfl) <;> rfl
  · rintro h rfl hlen
    simp [onProjectChange, loadChatHistory, hlen]

/-- Witness for C7 at a concrete project switch with an empty history. -/
theorem assistant_project_change_refetch_witness :
    onProjectChange [{ id := 0, role := "user", content := "old", timestamp := "t" }]
        "http://x" (some demoProject) (.ok none) "t" =
      onProjectChange [] "http://x" (some demoProject) (.ok none) "t" ∧
    (onProjectChange [] "http://x" (some demoProject) (.ok none) "t").url =
      "http://x/api/assistant/history?project_id=p1" ∧
    (onProjectChange [] "http://x" (some demoProject) (.ok none) "t").messages =
      [welcomeMessage (some demoProject) "t"] := by
  have h1 := assistant_project_change_refetch
    [{ id := 0, role := "user", content := "old", timestamp := "t" }] []
    "http://x" (some demoProject) (.ok none) "t"
    (by intro p hp; injection hp with h2; subst h2; decide)
  have h2 := assistant_project_change_refetch []
    [] "http://x" (some demoProject) (.ok none) "t"
    (by intro p hp; injection hp with h2; subst h2; decide)
  exact ⟨h1.1, h2.2.1.trans rfl, h2.2.2.1 none rfl (Or.inl rfl)⟩

/-- C10 (amended): while a chat request is awaiting its response
(isTyping is true) any call to handleSendMessage is a no-op, so at most
one chat request is in flight; a call whose effective message — the
custom message when truthy, else the trimmed input — is empty is a
no-op; every issued request appends exactly one user turn, at the old
end of the list, whose content is the effective message and is
non-empty; and for calls without a (truthy) custom message the appended
content is the trimmed input, hence has non-empty trimmed content.  (As
stated, the original claim fails for a whitespace-only custom message;
see the counterexample.) -/
theorem handleSendMessage_guard
    (st : AssistantState) (custom : Option String) (projectId : Option String)
    (now : Int) (nowIso : String) (outcome : ChatOutcome) :
    (st.isTyping = true →
      handleSendMessage st custom projectId now nowIso outcome =
        { state := st, request := none }) ∧
    (jsOrStr custom (jsTrim st.inputMessage) = "" →
      handleSendMessage st custom projectId now nowIso outcome =
        { state := st, request := none }) ∧
    (∀ req, (handleSendMessage st custom projectId now nowIso outcome).request = some req →
      req.message = jsOrStr custom (jsTrim st.inputMessage) ∧
      req.message ≠ "" ∧
      (handleSendMessage st custom projectId now nowIso outcome).state.messages.get?
          st.messages.length =
        some { id := now, role := "user", content := req.message, timestamp := nowIso } ∧
      (custom = none ∨ custom = some "" →
        req.message = jsTrim st.inputMessage ∧ jsTrim req.message = req.message)) := by
  refine ⟨?_, ?_, ?_⟩
  · intro h
    simp [handleSendMessage, h]
  · intro h
    simp [handleSendMessage, h]
  · intro req hreq
    by_cases hm : jsOrStr custom (jsTrim st.inputMessage) = ""
    · have hnoop : handleSendMessage st custom projectId now nowIso outcome =
          { state := st, request := none } := by simp [handleSendMessage, hm]
      rw [hnoop] at hreq
      cases hreq
    · cases hb : st.isTyping with
      | true =>
        have hnoop : handleSendMessage st custom projectId now nowIso outcome =
            { state := st, request := none } := by simp [handleSendMessage, hb]
        rw [hnoop] at hreq
        cases hreq
      | false =>
        have happ : ∀ (tail : List ChatMessage) (u : ChatMessage),
            ((st.messages ++ [u]) ++ tail).get? st.messages.length = some u := by
          intro tail u
          rw [List.append_assoc]
          exact get?_append_length _ _ _
        have hcustom : custom = none ∨ custom = some "" →
            jsOrStr custom (jsTrim st.inputMessage) = jsTrim st.inputMessage := by
          rintro (rfl | rfl) <;> simp [jsOrStr]
        cases outcome with
        | ok response timestamp sources =>
          have hval : handleSendMessage st custom projectId now nowIso
              (.ok response timestamp sources) =
              { state :=
                  { messages :=
                      (st.messages ++
                        [{ id := now, role := "user",
                           content := jsOrStr custom (jsTrim st.inputMessage),
                           timestamp := nowIso }]) ++
                      [{ id := now + 1, role := "assistant", content := response,
                         timestamp := timestamp, sources := sources.getD [] }]
                    inputMessage := ""
                    isTyping := false
                    error := none }
                request := some { message := jsOrStr custom (jsTrim st.inputMessage),
                                  project_context := projectId, use_rag := true } } := by
            simp [handleSendMessage, hm, hb]
          rw [hval] at hreq ⊢
          injection hreq with h3
          subst h3
          refine ⟨rfl, hm, happ _ _, ?_⟩
          intro hc
          exact ⟨hcustom hc, by rw [hcustom hc]; exact jsTrim_idem st.inputMessage⟩
        | httpError detail =>
          have hval : handleSendMessage st custom projectId now nowIso
              (.httpError detail) =
              { state :=
                  { messages :=
                      (st.messages ++
                        [{ id := now, role := "user",
                           content := jsOrStr custom (jsTrim st.inputMessage),
                           timestamp := nowIso }]) ++
                      [{ id := now + 1, role := "assistant",
                         content := "Sorry, I encountered an error: " ++
                           jsOrStr detail "Failed to get response" ++ ". Please try again."
                         timestamp := nowIso
                         isError := true }]
                    inputMessage := ""
                    isTyping := false
                    error := some (jsOrStr detail "Failed to get response") }
                request := some { message := jsOrStr custom (jsTrim st.inputMessage),
                                  project_context := projectId, use_rag := true } } := by
            simp [handleSendMessage, sendMessageCatch, hm, hb]
          rw [hval] at hreq ⊢
          injection hreq with h3
          subst h3
          refine ⟨rfl, hm, happ _ _, ?_⟩
          intro hc
          exact ⟨hcustom hc, by rw [hcustom hc]; exact jsTrim_idem st.inputMessage⟩
        | thrown msg =>
          have hval : handleSendMessage st custom projectId now nowIso (.thrown msg) =
              { state :=
                  { messages :=
                      (st.messages ++
                        [{ id := now, role := "user",
                           content := jsOrStr custom (jsTrim st.inputMessage),
                           timestamp := nowIso }]) ++
                      [{ id := now + 1, role := "assistant",
                         content := "Sorry, I encountered an error: " ++ msg ++
                           ". Please try again."
                         timestamp := nowIso
                         isError := true }]
                    inputMessage := ""
                    isTyping := false
                    error := some msg }
                request := some { message := jsOrStr custom (jsTrim st.inputMessage),
                                  project_context := projectId, use_rag := true } } := by
            simp [handleSendMessage, sendMessageCatch, hm, hb]
          rw [hval] at hreq ⊢
          injection hreq with h3
          subst h3
          refine ⟨rfl, hm, happ _ _, ?_⟩
          intro hc
          exact ⟨hcustom hc, by rw [hcustom hc]; exact jsTrim_idem st.inputMessage⟩

/-- Witness for C10 (amended): a call while a request is in flight is a
no-op. -/
theorem handleSendMessage_guard_witness :
    handleSendMessage busyAssistant none none 0 "t" (.ok "r" "t" none) =
      { state := busyAssistant, request := none } :=
  (handleSendMessage_guard busyAssistant none none 0 "t" (.ok "r" "t" none)).1 rfl

/-- Counterexample to C10 as stated: calling handleSendMessage with the
whitespace-only custom message " " while idle is not a no-op — it
issues a chat request and appends a user turn whose content " " has
empty trimmed content. -/
theorem handleSendMessage_whitespace_custom_counterexample :
    (handleSendMessage idleAssistant (some " ") none 0 "t0"
        (.ok "r" "t1" none)).request =
      some { message := " ", project_context := none, use_rag := true } ∧
    (handleSendMessage idleAssistant (some " ") none 0 "t0"
        (.ok "r" "t1" none)).state.messages.get? 0 =
      some { id := 0, role := "user", content := " ", timestamp := "t0" } ∧
    jsTrim " " = "" := by
  decide
